import Mathlib

/-!
Shallow embedding of the talentup repository (src/src/pages/CompanyProfile.tsx,
which bundles the CompanyProfile page component and the AuthProvider /
useAuth context).

Modelling conventions:
- Backend (supabase) calls are opaque to this codebase, so each call outcome
  (data-or-error) is passed to the operation as an explicit argument.
- Each operation returns the updated local React state together with the
  database write calls it issued and the toasts it showed, in order.
- TypeScript null and undefined are both modelled by Option.none; the string
  coalescing x || y is modelled by an emptiness test.
- JavaScript string length on ASCII input coincides with String.length here.
-/

namespace TalentUp

/-- Role union of the Profile interface in the auth context:
developer or company. -/
inductive Role where
  | developer
  | company
deriving DecidableEq

/-- Profile interface of the auth context (id, user_id, role, timestamps). -/
structure Profile where
  id : String
  user_id : String
  role : Role
  created_at : String
  updated_at : String
deriving DecidableEq

/-- User metadata carried on the supabase user: the sign-up stores name and
role there; the auth handlers read back user_metadata.role. -/
structure UserMetadata where
  name : Option String
  role : Option Role
deriving DecidableEq

/-- Supabase user as used by this codebase: an id and its metadata. -/
structure User where
  id : String
  user_metadata : UserMetadata
deriving DecidableEq

/-- Supabase session as used by this codebase: it carries its user. The
code only ever accesses session member user (session?.user). -/
structure Session where
  user : User
deriving DecidableEq

/-- One toast notification: title, description, variant ("destructive" or
"default"; omitted variants in the source are modelled as "default"). -/
structure Toast where
  title : String
  description : String
  variant : String
deriving DecidableEq

/-- Outcome of a supabase query, the pair data-and-error flattened: either
ok data or err message. -/
inductive DbResult (α : Type) where
  | ok (data : α)
  | err (message : String)
deriving DecidableEq

/-- fetchProfile of the auth context: on error it logs to the console and
returns, leaving the profile state unchanged and showing no toast; on
success it stores the fetched row (possibly none, maybeSingle) as the
profile. Returns the new profile state and the toasts shown. -/
def fetchProfile (res : DbResult (Option Profile)) (prev : Option Profile) :
    Option Profile × List Toast :=
  match res with
  | .err _ => (prev, [])
  | .ok data => (data, [])

/-- Local state mirrored by the AuthProvider: user, session, profile,
loading. -/
structure AuthState where
  user : Option User
  session : Option Session
  profile : Option Profile
  loading : Bool
deriving DecidableEq

/-- The onAuthStateChange callback of the AuthProvider effect: mirrors the
session and its user into state; when a user is present and its metadata
carries a role, it sets a temporary profile (empty id and timestamps) and
defers fetchProfile via setTimeout; when no session is present it clears
the profile. Returns the state as it stands before the deferred fetch runs,
and the user id the deferred fetch was scheduled for (none when no fetch
was scheduled). -/
def onAuthStateChange (st : AuthState) (session : Option Session) :
    AuthState × Option String :=
  match session with
  | some s =>
      let profileNew :=
        match s.user.user_metadata.role with
        | some r =>
            some { id := "", user_id := s.user.id, role := r,
                   created_at := "", updated_at := "" }
        | none => st.profile
      ({ user := some s.user, session := some s, profile := profileNew,
         loading := false },
       some s.user.id)
  | none =>
      ({ user := none, session := none, profile := none, loading := false },
       none)

/-- The getSession continuation of the AuthProvider effect: same temporary
profile logic as onAuthStateChange, but with no else-branch clearing the
profile when no session is present. -/
def onGetSession (st : AuthState) (session : Option Session) :
    AuthState × Option String :=
  match session with
  | some s =>
      let profileNew :=
        match s.user.user_metadata.role with
        | some r =>
            some { id := "", user_id := s.user.id, role := r,
                   created_at := "", updated_at := "" }
        | none => st.profile
      ({ user := some s.user, session := some s, profile := profileNew,
         loading := false },
       some s.user.id)
  | none =>
      ({ st with user := none, session := none, loading := false }, none)

/-- signOut of the auth context: awaits the backend sign-out (whose outcome
the code ignores) then unconditionally nulls user, session and profile. -/
def signOut (st : AuthState) : AuthState :=
  { st with user := none, session := none, profile := none }

/-- Error object returned by a supabase auth call. -/
structure AuthError where
  message : String
deriving DecidableEq

/-- The error value a context operation hands back to its caller: either the
backend error object passed through, or an Error constructed locally by this
codebase (new Error message). -/
inductive RetError where
  | backend (e : AuthError)
  | thrown (message : String)
deriving DecidableEq

/-- Data component of the supabase auth signUp response. -/
structure SignUpData where
  user : Option User
  session : Option Session
deriving DecidableEq

/-- Full supabase auth signUp response: data and error. -/
structure SignUpResponse where
  data : SignUpData
  error : Option AuthError
deriving DecidableEq

/-- signUp of the auth context, as a function of the backend response: on a
backend error it toasts and returns that error; when the backend reports a
user without a session (already-registered email) it toasts and returns a
locally constructed Error; otherwise it toasts success and returns error
null. Returns the returned error value and the toasts shown. -/
def signUp (resp : SignUpResponse) : Option RetError × List Toast :=
  match resp.error with
  | some e =>
      (some (RetError.backend e),
       [{ title := "Error en el registro", description := e.message,
          variant := "destructive" }])
  | none =>
      match resp.data.user, resp.data.session with
      | some _, none =>
          (some (RetError.thrown "Email ya registrado"),
           [{ title := "Email ya registrado",
              description := "Ese correo ya está en uso. Inicia sesión o confirma tu cuenta desde el email.",
              variant := "destructive" }])
      | _, _ =>
          (none,
           [{ title := "¡Registro exitoso!",
              description := "Revisa tu email para confirmar tu cuenta.",
              variant := "default" }])

/-- Value provided by the AuthContext (its data fields; the operation
members are modelled by the top-level functions of this file). -/
structure AuthContextType where
  user : Option User
  session : Option Session
  profile : Option Profile
  loading : Bool
deriving DecidableEq

/-- useAuth hook: reads the context value; when it is undefined (no
enclosing AuthProvider) it throws, otherwise it returns the full value. -/
def useAuth (context : Option AuthContextType) :
    Except String AuthContextType :=
  match context with
  | none => Except.error "useAuth must be used within an AuthProvider"
  | some c => Except.ok c

/-- CompanyProfile row interface of the page (select star keyed on
user_id, maybeSingle). -/
structure CompanyProfile where
  id : String
  name : Option String
  contact_email : Option String
  description : Option String
  sector : Option String
  logo_url : Option String
deriving DecidableEq

/-- Values of the four form fields of the page (react-hook-form state;
defaults are empty strings). -/
structure FormValues where
  name : String
  contact_email : String
  description : String
  sector : String
deriving DecidableEq

/-- Local state of the CompanyProfile page: loading and uploading flags,
the loaded profile row, and the form values. -/
structure PageState where
  loading : Bool
  uploading : Bool
  profile : Option CompanyProfile
  form : FormValues
deriving DecidableEq

/-- loadProfile of the page: no-op without a user; on a backend error it
toasts a fixed destructive message; on data it stores the row and copies
each field into the form, null coalesced to the empty string; on ok-null
(no row) it changes nothing. Returns the new state and the toasts shown. -/
def loadProfile (user : Option User) (res : DbResult (Option CompanyProfile))
    (st : PageState) : PageState × List Toast :=
  match user with
  | none => (st, [])
  | some _ =>
      match res with
      | .err _ =>
          (st, [{ title := "Error", description := "No se pudo cargar el perfil",
                  variant := "destructive" }])
      | .ok none => (st, [])
      | .ok (some d) =>
          ({ st with
             profile := some d,
             form := { name := d.name.getD "",
                       contact_email := d.contact_email.getD "",
                       description := d.description.getD "",
                       sector := d.sector.getD "" } }, [])

/-- File extension as computed by the page: name.split(dot).pop(), the last
component of splitting the file name on the dot character. -/
def fileExtOf (origName : String) : String :=
  (origName.splitOn ".").getLastD ""

/-- Storage object path built by uploadFile: filePath is userId slash
fileName where fileName is itself userId slash timestamp dot extension. -/
def uploadFilePath (u : User) (origName : String) (now : Nat) : String :=
  let fileExt := fileExtOf origName
  let fileName := u.id ++ "/" ++ toString now ++ "." ++ fileExt
  u.id ++ "/" ++ fileName

/-- Public URL handed back by the storage SDK for a bucket and path
(opaque SDK construction, modelled as the pair joined by a slash). -/
def getPublicUrl (bucket path : String) : String :=
  bucket ++ "/" ++ path

/-- One storage upload request: target bucket and object path. -/
structure StorageUpload where
  bucket : String
  path : String
deriving DecidableEq

/-- uploadFile of the page, as a function of the signed-in user, the
uploaded file name, the current timestamp, the bucket, and the outcome of
the storage upload call (some message when it errored). It throws before
any call when no user is signed in; otherwise it issues the upload, throws
the upload error if any, and returns the public URL of the path. Returns
the storage calls issued and the thrown-or-returned result. -/
def uploadFile (user : Option User) (origName : String) (now : Nat)
    (bucket : String) (uploadErr : Option String) :
    List StorageUpload × Except String String :=
  match user with
  | none => ([], Except.error "No user found")
  | some u =>
      let filePath := uploadFilePath u origName now
      match uploadErr with
      | some e => ([{ bucket := bucket, path := filePath }], Except.error e)
      | none =>
          ([{ bucket := bucket, path := filePath }],
           Except.ok (getPublicUrl bucket filePath))

/-- Payload of an update call on the companies table, field for field as
built by the page (None is null or undefined). -/
structure CompanyUpdate where
  user_id : String
  name : Option String
  contact_email : Option String
  description : Option String
  sector : Option String
  logo_url : Option String
deriving DecidableEq

/-- Which write method of the table SDK the code invoked. -/
inductive DbOp where
  | update
  | insert
  | upsert
deriving DecidableEq

/-- One database write call: table, method, payload, and the eq filter
column and value it is keyed on. -/
structure UpdateCall where
  table : String
  op : DbOp
  payload : CompanyUpdate
  eqColumn : String
  eqValue : String
deriving DecidableEq

/-- handleLogoChange of the page, as a function of the outcomes of its two
backend calls (upload then update). No-op without a user. On success of
both, it issues one update keyed on user_id whose payload keeps the loaded
profile fields and sets logo_url to the freshly uploaded public URL, then
changes only logo_url in the local profile state and toasts success. Any
thrown error is caught and toasted (message, or a fixed fallback when the
message is empty). Returns new state, update calls issued, toasts shown. -/
def handleLogoChange (user : Option User) (st : PageState) (origName : String)
    (now : Nat) (uploadErr : Option String) (updateErr : Option String) :
    PageState × List UpdateCall × List Toast :=
  match user with
  | none => (st, [], [])
  | some u =>
      match uploadErr with
      | some e =>
          ({ st with uploading := false }, [],
           [{ title := "Error",
              description := if e = "" then "No se pudo subir el logo" else e,
              variant := "destructive" }])
      | none =>
          let logoUrl := getPublicUrl "logos" (uploadFilePath u origName now)
          let call : UpdateCall :=
            { table := "companies", op := DbOp.update,
              payload := { user_id := u.id,
                           name := st.profile.bind (fun p => p.name),
                           contact_email := st.profile.bind (fun p => p.contact_email),
                           description := st.profile.bind (fun p => p.description),
                           sector := st.profile.bind (fun p => p.sector),
                           logo_url := some logoUrl },
              eqColumn := "user_id", eqValue := u.id }
          match updateErr with
          | some e =>
              ({ st with uploading := false }, [call],
               [{ title := "Error",
                  description := if e = "" then "No se pudo subir el logo" else e,
                  variant := "destructive" }])
          | none =>
              ({ st with
                 profile := st.profile.map (fun p => { p with logo_url := some logoUrl }),
                 uploading := false },
               [call],
               [{ title := "Logo actualizado",
                  description := "Tu logo se ha guardado correctamente",
                  variant := "default" }])

/-- Falsy coalescing of a form string to null: data.field or null. -/
def emptyToNull (s : String) : Option String :=
  if s = "" then none else some s

/-- onSubmit of the page, as a function of the outcome of its update call.
No-op without a user. Otherwise it issues exactly one update on companies
keyed on user_id, with name and contact_email verbatim from the form,
description and sector coalesced to null when empty, and logo_url taken
from the loaded profile. On error it toasts (message, or a fixed fallback
when empty); on success it toasts success (the subsequent loadProfile
reload is a separate call modelled by loadProfile). Returns new state,
update calls issued, toasts shown. -/
def onSubmit (user : Option User) (st : PageState) (d : FormValues)
    (updateErr : Option String) : PageState × List UpdateCall × List Toast :=
  match user with
  | none => (st, [], [])
  | some u =>
      let profileData : CompanyUpdate :=
        { user_id := u.id,
          name := some d.name,
          contact_email := some d.contact_email,
          description := emptyToNull d.description,
          sector := emptyToNull d.sector,
          logo_url := st.profile.bind (fun p => p.logo_url) }
      let call : UpdateCall :=
        { table := "companies", op := DbOp.update, payload := profileData,
          eqColumn := "user_id", eqValue := u.id }
      match updateErr with
      | some e =>
          ({ st with loading := false }, [call],
           [{ title := "Error",
              description := if e = "" then "No se pudo guardar el perfil" else e,
              variant := "destructive" }])
      | none =>
          ({ st with loading := false }, [call],
           [{ title := "Perfil actualizado",
              description := "Tu perfil se ha guardado correctamente",
              variant := "default" }])

/-- companyProfileSchema of the page: zod object requiring name of at least
two characters and an email-format contact_email; description and sector
are optional-or-empty and accept any string. The email format check itself
belongs to the validation library, so it is a parameter emailOk; the
function returns whether safeParse succeeds. -/
def companyProfileSchema (emailOk : String → Bool)
    (name contact_email description sector : String) : Bool :=
  decide (2 ≤ name.length) && emailOk contact_email

/-- Sample user for concrete witnesses. -/
def uEx : User :=
  { id := "u1", user_metadata := { name := some "Dev", role := some Role.developer } }

/-- Sample session for concrete witnesses. -/
def sessEx : Session := { user := uEx }

/-- Sample initial auth state for concrete witnesses. -/
def authStEx : AuthState :=
  { user := none, session := none, profile := none, loading := true }

/-- Sample loaded company row for concrete witnesses. -/
def pEx : CompanyProfile :=
  { id := "c1", name := some "Acme", contact_email := some "a@acme.com",
    description := none, sector := some "Tech", logo_url := some "old.png" }

/-- Sample page state with a loaded profile for concrete witnesses. -/
def pageStEx : PageState :=
  { loading := false, uploading := false, profile := some pEx,
    form := { name := "Acme", contact_email := "a@acme.com",
              description := "", sector := "Tech" } }

/-- Sample form values for concrete witnesses. -/
def formEx : FormValues :=
  { name := "Acme", contact_email := "a@acme.com",
    description := "", sector := "Finance" }

/-- C1 counterexample: fetchProfile catches a backend error without showing
any toast (it only logs to the console), so not every backend error is
surfaced as a user-facing notification. -/
theorem fetchProfile_error_silent :
    (fetchProfile (DbResult.err "db failure") none).2 = [] ∧
    (fetchProfile (DbResult.err "db failure") none).1 = none :=
  ⟨rfl, rfl⟩

/-- C1 (amended): errors from the backend calls in loadProfile,
handleLogoChange (upload or update step) and onSubmit are each surfaced as
exactly one destructive toast, while fetchProfile catches its error
silently, leaving the profile unchanged and showing no toast. -/
theorem backend_errors_toasted (u : User) (st : PageState) (d : FormValues)
    (msg : String) (prev : Option Profile) (origName : String) (now : Nat) :
    (loadProfile (some u) (DbResult.err msg) st).2 =
      [{ title := "Error", description := "No se pudo cargar el perfil",
         variant := "destructive" }] ∧
    (handleLogoChange (some u) st origName now (some msg) none).2.2 =
      [{ title := "Error",
         description := if msg = "" then "No se pudo subir el logo" else msg,
         variant := "destructive" }] ∧
    (handleLogoChange (some u) st origName now none (some msg)).2.2 =
      [{ title := "Error",
         description := if msg = "" then "No se pudo subir el logo" else msg,
         variant := "destructive" }] ∧
    (onSubmit (some u) st d (some msg)).2.2 =
      [{ title := "Error",
         description := if msg = "" then "No se pudo guardar el perfil" else msg,
         variant := "destructive" }] ∧
    fetchProfile (DbResult.err msg) prev = (prev, []) :=
  ⟨rfl, rfl, rfl, rfl, rfl⟩

/-- C2 counterexample: a one-character name together with an email the
email check accepts fails validation, because the schema requires at least
two characters, not merely a non-empty name. -/
theorem schema_rejects_one_char_name :
    ("a" : String).length = 1 ∧
    companyProfileSchema (fun _ => true) "a" "x@y.com" "" "" = false :=
  ⟨rfl, rfl⟩

/-- C2 (amended): validation accepts every name of at least two characters
together with an email the email check accepts, whatever the description
and sector values. -/
theorem schema_accepts_two_char_names (emailOk : String → Bool)
    (name email d s : String) (hn : 2 ≤ name.length)
    (he : emailOk email = true) :
    companyProfileSchema emailOk name email d s = true := by
  simp [companyProfileSchema, hn, he]

/-- C2 witness: a concrete two-character name passes validation. -/
theorem schema_accepts_two_char_names_w :
    companyProfileSchema (fun _ => true) "ab" "x@y.com" "" "" = true :=
  schema_accepts_two_char_names (fun _ => true) "ab" "x@y.com" "" ""
    (by decide) rfl

/-- C3 counterexample: when the backend sign-up returns no error but
reports an existing user (user present, session absent), signUp returns a
locally constructed error rather than error null, so it is not a plain
pass-through of the backend result. -/
theorem signUp_existing_user_not_passthrough :
    ({ data := { user := some uEx, session := none },
       error := none } : SignUpResponse).error = none ∧
    (signUp { data := { user := some uEx, session := none },
              error := none }).1 =
      some (RetError.thrown "Email ya registrado") :=
  ⟨rfl, rfl⟩

/-- C3 (amended): signUp passes a backend error through unchanged; it
returns error null exactly when the backend returned no error and the
response is not the existing-user shape (user present without a session),
in which case it returns a locally constructed error instead. -/
theorem signUp_passthrough (resp : SignUpResponse) :
    ((signUp resp).1 = none ↔
       resp.error = none ∧
       ¬(resp.data.user ≠ none ∧ resp.data.session = none)) ∧
    (∀ e : AuthError, resp.error = some e →
       (signUp resp).1 = some (RetError.backend e)) := by
  obtain ⟨⟨du, ds⟩, derr⟩ := resp
  cases derr <;> cases du <;> cases ds <;> simp [signUp]

/-- C3 witness: a concrete failing backend call has its error passed
through. -/
theorem signUp_passthrough_w :
    (signUp { data := { user := none, session := none },
              error := some { message := "bad password" } }).1 =
      some (RetError.backend { message := "bad password" }) :=
  (signUp_passthrough _).2 { message := "bad password" } rfl

/-- C4: on an auth state change or on the initial session load with a
session whose user metadata carries a role, the handlers immediately set a
temporary profile with that user id and role and empty id and timestamps,
scheduling the database profile fetch to run afterwards; on a state change
with no session the profile is set to null. -/
theorem temp_profile_from_metadata (st st2 : AuthState) (s : Session)
    (r : Role) (h : s.user.user_metadata.role = some r) :
    (onAuthStateChange st (some s)).1.profile =
      some { id := "", user_id := s.user.id, role := r,
             created_at := "", updated_at := "" } ∧
    (onAuthStateChange st (some s)).2 = some s.user.id ∧
    (onGetSession st2 (some s)).1.profile =
      some { id := "", user_id := s.user.id, role := r,
             created_at := "", updated_at := "" } ∧
    (onGetSession st2 (some s)).2 = some s.user.id ∧
    (∀ st3 : AuthState, (onAuthStateChange st3 none).1.profile = none) := by
  refine ⟨?_, rfl, ?_, rfl, fun st3 => rfl⟩ <;>
    simp [onAuthStateChange, onGetSession, h]

/-- C4 witness: concrete session whose metadata role is developer. -/
theorem temp_profile_from_metadata_w :
    (onAuthStateChange authStEx (some sessEx)).1.profile =
      some { id := "", user_id := sessEx.user.id, role := Role.developer,
             created_at := "", updated_at := "" } :=
  (temp_profile_from_metadata authStEx authStEx sessEx Role.developer rfl).1

/-- C5: after signOut the mirrored local auth state is fully cleared,
whatever the prior state: user, session and profile are all null. -/
theorem signOut_clears_state (st : AuthState) :
    (signOut st).user = none ∧ (signOut st).session = none ∧
    (signOut st).profile = none :=
  ⟨rfl, rfl, rfl⟩

/-- C6: a validated submission with a signed-in user issues exactly one
update call on companies, keyed by eq on user_id and never an insert,
whose payload takes name and contact_email verbatim from the form and maps
description and sector to null exactly when the form value is empty. -/
theorem onSubmit_single_update (u : User) (st : PageState) (d : FormValues)
    (updateErr : Option String) :
    (onSubmit (some u) st d updateErr).2.1 =
      [{ table := "companies", op := DbOp.update,
         payload := { user_id := u.id, name := some d.name,
                      contact_email := some d.contact_email,
                      description := emptyToNull d.description,
                      sector := emptyToNull d.sector,
                      logo_url := st.profile.bind (fun p => p.logo_url) },
         eqColumn := "user_id", eqValue := u.id }] ∧
    (d.description = "" → emptyToNull d.description = none) ∧
    (d.description ≠ "" → emptyToNull d.description = some d.description) ∧
    (d.sector = "" → emptyToNull d.sector = none) ∧
    (d.sector ≠ "" → emptyToNull d.sector = some d.sector) := by
  refine ⟨?_, ?_, ?_, ?_, ?_⟩
  · cases updateErr <;> rfl
  all_goals intro h
  all_goals simp [emptyToNull, h]

/-- C6 witness: concrete submission with an empty description and a
non-empty sector. -/
theorem onSubmit_single_update_w :
    (onSubmit (some uEx) pageStEx formEx none).2.1 =
      [{ table := "companies", op := DbOp.update,
         payload := { user_id := "u1", name := some "Acme",
                      contact_email := some "a@acme.com",
                      description := none, sector := some "Finance",
                      logo_url := some "old.png" },
         eqColumn := "user_id", eqValue := "u1" }] := by
  have h := (onSubmit_single_update uEx pageStEx formEx none).1
  simpa [uEx, pageStEx, pEx, formEx, emptyToNull] using h

/-- C7: with a loaded profile p, the onSubmit payload carries logo_url
equal to the loaded logo_url, the handleLogoChange payload carries name,
contact_email, description and sector equal to the loaded values, and a
successful logo change alters only the logo_url field of the local profile
state. -/
theorem logo_form_non_interference (u : User) (st : PageState)
    (p : CompanyProfile) (d : FormValues) (origName : String) (now : Nat)
    (hp : st.profile = some p) :
    (∀ uerr : Option String, ∀ c ∈ (onSubmit (some u) st d uerr).2.1,
       c.payload.logo_url = p.logo_url) ∧
    (∀ uerr : Option String,
       ∀ c ∈ (handleLogoChange (some u) st origName now none uerr).2.1,
       c.payload.name = p.name ∧ c.payload.contact_email = p.contact_email ∧
       c.payload.description = p.description ∧
       c.payload.sector = p.sector) ∧
    (handleLogoChange (some u) st origName now none none).1.profile =
      some { p with
             logo_url := some (getPublicUrl "logos"
                                 (uploadFilePath u origName now)) } := by
  refine ⟨?_, ?_, ?_⟩
  · intro uerr c hc
    cases uerr <;> simp [onSubmit] at hc <;> simp [hc, hp]
  · intro uerr c hc
    cases uerr <;> simp [handleLogoChange] at hc <;> simp [hc, hp]
  · simp [handleLogoChange, hp]

/-- C7 witness: concrete successful logo change on the sample loaded
profile changes only its logo_url. -/
theorem logo_form_non_interference_w :
    (handleLogoChange (some uEx) pageStEx "logo.png" 5 none none).1.profile =
      some { pEx with
             logo_url := some (getPublicUrl "logos"
                                 (uploadFilePath uEx "logo.png" 5)) } :=
  (logo_form_non_interference uEx pageStEx pEx formEx "logo.png" 5 rfl).2.2

/-- C8: validation fails whenever the email check rejects contact_email,
and succeeds for every two-character name whenever the email check accepts
contact_email. -/
theorem schema_email_and_two_char_name (emailOk : String → Bool)
    (name email d s : String) :
    (emailOk email = false →
       companyProfileSchema emailOk name email d s = false) ∧
    (name.length = 2 → emailOk email = true →
       companyProfileSchema emailOk name email d s = true) := by
  constructor
  · intro h
    simp [companyProfileSchema, h]
  · intro h1 h2
    simp [companyProfileSchema, h1, h2]

/-- C8 witness: a concrete rejected email fails validation and a concrete
accepted two-character name passes it. -/
theorem schema_email_and_two_char_name_w :
    companyProfileSchema (fun e => e == "a@b.co") "ab" "nope" "" "" = false ∧
    companyProfileSchema (fun e => e == "a@b.co") "ab" "a@b.co" "" "" = true :=
  ⟨(schema_email_and_two_char_name (fun e => e == "a@b.co") "ab" "nope" "" "").1
     (by decide),
   (schema_email_and_two_char_name (fun e => e == "a@b.co") "ab" "a@b.co" "" "").2
     (by decide) (by decide)⟩

/-- C9: every storage call issued by uploadFile targets the path
userId/userId/timestamp.ext, which begins with the user id segment twice,
and with no signed-in user uploadFile throws before issuing any call. -/
theorem uploadFile_user_scoped (u : User) (origName : String) (now : Nat)
    (bucket : String) (uploadErr : Option String) :
    (uploadFile (some u) origName now bucket uploadErr).1 =
      [{ bucket := bucket, path := uploadFilePath u origName now }] ∧
    uploadFilePath u origName now =
      u.id ++ "/" ++ u.id ++ "/" ++ toString now ++ "." ++ fileExtOf origName ∧
    (∃ rest, uploadFilePath u origName now =
       u.id ++ "/" ++ u.id ++ "/" ++ rest) ∧
    uploadFile none origName now bucket uploadErr =
      ([], Except.error "No user found") := by
  refine ⟨?_, ?_, ?_, rfl⟩
  · cases uploadErr <;> rfl
  · simp [uploadFilePath, String.append_assoc]
  · exact ⟨toString now ++ "." ++ fileExtOf origName,
      by simp [uploadFilePath, String.append_assoc]⟩

/-- C10: useAuth throws when the context value is undefined (no enclosing
AuthProvider) and returns the full context value inside one. -/
theorem useAuth_requires_provider (c : AuthContextType) :
    useAuth none = Except.error "useAuth must be used within an AuthProvider" ∧
    useAuth (some c) = Except.ok c :=
  ⟨rfl, rfl⟩

end TalentUp
